import Mathlib

/-!
Verification development for the Xcode project tree generator
(`Xcode_Project_Tree/xcode_tree.py`).

The script walks the object graph of a parsed `project.pbxproj` description
and prints an indented tree.  We embed the script shallowly:

* Python objects produced by the `pbxproj` library become the `PBXObject`
  record (absent attributes are `none` / `[]`); `project.get_object` becomes
  an association-list lookup.
* The filesystem becomes a finite tree of named nodes (`FSNode`); `os.path`
  functions (`join`, `normpath`, `abspath`, `basename`, `isdir`, `exists`,
  `listdir`) are modelled on strings and on that tree.
* Every print becomes a line appended to a returned `List String`.
* Python's unbounded recursion (path resolution through `parent` links, the
  directory scan, the tree walk) is modelled with an explicit fuel argument;
  a result of `none` means the recursion did not finish within the given
  depth, i.e. the Python code does not terminate at any bounded depth.
* `sys.exit` / falling off `__main__` becomes an explicit exit code.
-/

/-- Whether `pre` is a prefix of `s`, on the character lists. -/
def strStartsWith (s pre : String) : Bool :=
  pre.data.isPrefixOf s.data

/-- Whether `suf` is a suffix of `s`, on the character lists
(Python's `str.endswith`). -/
def strEndsWith (s suf : String) : Bool :=
  suf.data.isSuffixOf s.data

/-- Split a character list at a separator character. -/
def splitCharAux (sep : Char) : List Char → List Char → List String
  | acc, [] => [String.mk acc.reverse]
  | acc, c :: cs =>
    if c = sep then String.mk acc.reverse :: splitCharAux sep [] cs
    else splitCharAux sep (c :: acc) cs

/-- Split a string on a separator character (Python's `str.split(sep)`,
which always yields at least one piece). -/
def splitOnChar (sep : Char) (s : String) : List String :=
  splitCharAux sep [] s.data

/-- Concatenate a list of strings. -/
def strJoin (l : List String) : String :=
  l.foldl (fun a b => a ++ b) ""

/-- Join strings with a separator between consecutive pieces. -/
def strIntercalate (sep : String) : List String → String
  | [] => ""
  | [a] => a
  | a :: rest => a ++ sep ++ strIntercalate sep rest

/-- ASCII lower-casing of one character (Python's `str.lower` on the
characters this model meets). -/
def charToLower (c : Char) : Char :=
  if 'A' ≤ c ∧ c ≤ 'Z' then Char.ofNat (c.toNat + 32) else c

/-- ASCII lower-casing of a string. -/
def strToLower (s : String) : String :=
  String.mk (s.data.map charToLower)

/-- Lexicographic comparison of character lists by code point, the order of
Python's `sorted` on strings. -/
def charListLe : List Char → List Char → Bool
  | [], _ => true
  | _ :: _, [] => false
  | a :: as, b :: bs => if a = b then charListLe as bs else decide (a < b)

/-- Lexicographic string comparison by code point. -/
def strLe (a b : String) : Bool :=
  charListLe a.data b.data

/-- Python truthiness of an optional string attribute: `None` and the empty
string are falsy. -/
def truthy : Option String → Bool
  | none => false
  | some s => !s.isEmpty

/-- Model of posix `os.path.join(a, b)` for two components. -/
def joinPath (a b : String) : String :=
  if strStartsWith b "/" then b
  else if a = "" ∨ strEndsWith a "/" then a ++ b
  else a ++ "/" ++ b

/-- Stack step of posix `os.path.normpath`: drop empty and `.` components,
let `..` pop a previous component (except past the root of an absolute path,
or when the path is relative and nothing is left to pop). -/
def normComps (absRoot : Bool) : List String → List String → List String
  | acc, [] => acc.reverse
  | acc, c :: rest =>
    if c = "" ∨ c = "." then normComps absRoot acc rest
    else if c ≠ ".." ∨ (¬ absRoot ∧ acc = []) ∨ acc.head? = some ".." then
      normComps absRoot (c :: acc) rest
    else if acc = [] then normComps absRoot acc rest
    else normComps absRoot acc.tail rest

/-- Model of posix `os.path.normpath`. -/
def normpath (p : String) : String :=
  if p = "" then "."
  else
    let slashes : Nat :=
      if strStartsWith p "/" then
        if strStartsWith p "//" ∧ ¬ strStartsWith p "///" then 2 else 1
      else 0
    let comps := normComps (slashes > 0) [] (splitOnChar '/' p)
    let out := strJoin (List.replicate slashes "/") ++ strIntercalate "/" comps
    if out = "" then "." else out

/-- Model of posix `os.path.abspath`: join onto the working directory when
relative, then normalise. -/
def abspath (cwd p : String) : String :=
  if strStartsWith p "/" then normpath p else normpath (joinPath cwd p)

/-- Model of posix `os.path.basename`: everything after the last slash. -/
def basename (p : String) : String :=
  (((splitOnChar '/' p).getLast?).getD "")

/-- Model of `pathlib.Path(name).suffix` for a single directory entry: the
part of the name from its last dot, empty when the name has no dot, starts
with its only dot, or ends with the dot. -/
def pySuffix (nm : String) : String :=
  let cs := nm.toList
  match cs.reverse.findIdx? (fun c => c = '.') with
  | none => ""
  | some k =>
    let i := cs.length - 1 - k
    if 0 < i ∧ i < cs.length - 1 then String.mk (cs.drop i) else ""

/-- The indentation produced by the script: two spaces per level. -/
def indentStr (n : Nat) : String :=
  strJoin (List.replicate n "  ")

/-- Stable insertion of an element into a list, in front of the first
element it compares at-or-below.  Together with `pySortedBy` this models
Python's stable `sorted`. -/
def insertBy (le : α → α → Bool) (a : α) : List α → List α
  | [] => [a]
  | b :: bs => if le a b then a :: b :: bs else b :: insertBy le a bs

/-- Stable sort modelling Python's `sorted` (any stable sort under the same
total order produces the same list). -/
def pySortedBy (le : α → α → Bool) : List α → List α
  | [] => []
  | a :: as => insertBy le a (pySortedBy le as)

/-- One filesystem object: a plain file, or a directory with its entries. -/
inductive FSNode where
  | file (nm : String)
  | dir (nm : String) (entries : List FSNode)

/-- The name of a filesystem node. -/
def FSNode.nameOf : FSNode → String
  | .file n => n
  | .dir n _ => n

/-- Whether a filesystem node is a directory (`os.path.isdir` on the entry). -/
def FSNode.isDir : FSNode → Bool
  | .file _ => false
  | .dir _ _ => true

/-- The components of a path as the OS resolves it, after normalisation. -/
def pathParts (p : String) : List String :=
  (splitOnChar '/' (normpath p)).filter (fun c => c ≠ "" ∧ c ≠ ".")

/-- Find a directory entry by name. -/
def findFSEntry (es : List FSNode) (n : String) : Option FSNode :=
  es.find? (fun e => e.nameOf == n)

/-- Walk a component list down the filesystem tree. -/
def navigateFS (es : List FSNode) : List String → Option FSNode
  | [] => none
  | [n] => findFSEntry es n
  | n :: rest =>
    match findFSEntry es n with
    | some (.dir _ ch) => navigateFS ch rest
    | _ => none

/-- The listing of the directory at absolute path `p` (`os.listdir`), or
`none` when `p` is not an existing directory.  The filesystem argument is
the listing of the root directory `/`. -/
def dirEntriesAt (fs : List FSNode) (p : String) : Option (List FSNode) :=
  match pathParts p with
  | [] => if strStartsWith p "/" then some fs else none
  | parts =>
    match navigateFS fs parts with
    | some (.dir _ es) => some es
    | _ => none

/-- Model of `os.path.isdir` on an absolute path. -/
def isDirPath (fs : List FSNode) (p : String) : Bool :=
  (dirEntriesAt fs p).isSome

/-- Model of `os.path.exists` on an absolute path (true for files and
directories alike). -/
def existsFS (fs : List FSNode) (p : String) : Bool :=
  match pathParts p with
  | [] => strStartsWith p "/"
  | parts => (navigateFS fs parts).isSome

/-- One object of the parsed project description, as the `pbxproj` library
exposes it.  A missing attribute is `none` (or `[]` for the list-valued
attributes), matching the script's `getattr(obj, ..., default)` accesses. -/
structure PBXObject where
  isa : String
  name : Option String := none
  path : Option String := none
  source_tree : Option String := none
  parent : Option String := none
  children : List String := []
  targets : List String := []
  buildPhases : List String := []
  productReference : Option String := none
  mainGroup : Option String := none
  files : List String := []
  fileRef : Option String := none
deriving DecidableEq

/-- The loaded project: objects addressed by identifier plus the root
object identifier (`none` models a missing or empty `rootObject`). -/
structure XcodeProject where
  objects : List (String × PBXObject)
  rootObject : Option String := none
deriving DecidableEq

/-- Model of `project.get_object(ident)`. -/
def XcodeProject.get_object (p : XcodeProject) (ident : String) : Option PBXObject :=
  (p.objects.find? (fun kv => kv.1 == ident)).map (fun kv => kv.2)

/-- The parent object of an item: the `parent_id = getattr(item, 'parent',
None); if parent_id: parent_obj = project.get_object(parent_id)` steps of
`get_resolved_path_for_group_item`; `none` when the parent identifier is
falsy or does not dereference. -/
def parentObjOf (project : XcodeProject) (item : PBXObject) : Option PBXObject :=
  if truthy item.parent then project.get_object (item.parent.getD "") else none

/-- Model of `get_display_name` (xcode_tree.py lines 54-71).  The final
`"Unknown Item"` branch of the source is unreachable here because every
modelled object carries an `isa`. -/
def get_display_name (obj : PBXObject) : String :=
  if truthy obj.name then
    let nm := obj.name.getD ""
    if truthy obj.path
        ∧ (obj.isa = "PBXGroup" ∨ obj.isa = "PBXFileSystemSynchronizedRootGroup")
        ∧ obj.source_tree.getD "GROUP" ≠ "GROUP"
        ∧ nm = basename (obj.path.getD "") then
      obj.path.getD ""
    else nm
  else if truthy obj.path then basename (obj.path.getD "")
  else "Unnamed " ++ obj.isa

/-- The effective source tree of `get_resolved_path_for_group_item`: a
missing (or literal `"None"`) `source_tree` on a group-like item defaults
to `SOURCE_ROOT`. -/
def effectiveSourceTree (item : PBXObject) : Option String :=
  if (item.source_tree = none ∨ item.source_tree = some "None")
      ∧ (item.isa = "PBXGroup" ∨ item.isa = "PBXFileSystemSynchronizedRootGroup") then
    some "SOURCE_ROOT"
  else item.source_tree

/-- Model of `get_resolved_path_for_group_item` (xcode_tree.py lines
73-128), with explicit recursion fuel for the unguarded recursion through
`parent` links: `none` means the recursion exceeded every bound of the
given depth (the Python call does not return), `some none` models the
function returning `None` (unresolved), `some (some p)` a resolved path. -/
def get_resolved_path_for_group_item (fs : List FSNode) (cwd : String)
    (project : XcodeProject) (current_project_root_dir : String) :
    Nat → PBXObject → Option (Option String)
  | 0, _ => none
  | fuel + 1, item_obj =>
    if truthy item_obj.path then
      let p := item_obj.path.getD ""
      let est := effectiveSourceTree item_obj
      if truthy est then
        if est = some "SOURCE_ROOT" then
          some (some (abspath cwd (joinPath current_project_root_dir p)))
        else if est = some "<group>" then
          match parentObjOf project item_obj with
          | some parent_obj =>
            match get_resolved_path_for_group_item fs cwd project
                current_project_root_dir fuel parent_obj with
            | none => none
            | some (some parent_full_path) =>
              if isDirPath fs parent_full_path then
                some (some (abspath cwd (joinPath parent_full_path p)))
              else
                some (some (abspath cwd (joinPath current_project_root_dir p)))
            | some none =>
              some (some (abspath cwd (joinPath current_project_root_dir p)))
          | none =>
            some (some (abspath cwd (joinPath current_project_root_dir p)))
        else if est = some "<absolute>" then
          some (some (abspath cwd p))
        else some none
      else some none
    else some none

/-- The recognised-extension allowlist of the filesystem scanner
(xcode_tree.py lines 135-144). -/
def source_extensions : List String :=
  [".swift", ".m", ".mm", ".c", ".cpp", ".h", ".hpp",
   ".storyboard", ".xib", ".plist", ".json",
   ".xcassets", ".dataset", ".mlmodel", ".playground",
   ".intentdefinition", ".strings", ".stringsdict",
   ".entitlements", ".md", ".txt", ".rtf",
   ".png", ".jpg", ".jpeg", ".gif", ".heic", ".svg", ".pdf",
   ".ttf", ".otf",
   ".wav", ".mp3", ".aac", ".m4a"]

/-- The scanner's skip rule: dotfiles and the build-artifact denylist. -/
def shouldSkipEntry (n : String) : Bool :=
  strStartsWith n "." || n == "__pycache__" || n == "build" || n == "DerivedData"

/-- The scanner's file recognition: a case-sensitive `endswith` test of the
raw entry name against each allowlisted (lower-case) extension. -/
def isRecognizedFile (n : String) : Bool :=
  source_extensions.any (fun ext => strEndsWith n ext)

/-- The scanner's icon for a recognised file, selected on the lower-cased
`pathlib` suffix (xcode_tree.py lines 196-208). -/
def fileIconForScan (n : String) : String :=
  let fe := strToLower (pySuffix n)
  if fe = ".swift" then "𝑺"
  else if fe = ".h" ∨ fe = ".hpp" then "𝒉"
  else if fe = ".m" ∨ fe = ".mm" ∨ fe = ".c" ∨ fe = ".cpp" then "𝒎"
  else if fe = ".json" then "｛｝"
  else if fe = ".plist" then "⚙️"
  else if fe = ".intentdefinition" then "💡"
  else if fe = ".strings" ∨ fe = ".stringsdict" then "🌍"
  else if fe = ".entitlements" then "🔑"
  else if fe = ".storyboard" ∨ fe = ".xib" then "📱"
  else if fe = ".png" ∨ fe = ".jpg" ∨ fe = ".jpeg" ∨ fe = ".gif" ∨ fe = ".heic" ∨ fe = ".svg" then "🖼️"
  else if fe = ".pdf" then "📰"
  else "📄"

/-- Comparison under which the scanner lists a directory: Python's
`sorted(os.listdir(...))`, i.e. lexicographic on names. -/
def sortFSEntries (es : List FSNode) : List FSNode :=
  pySortedBy (fun a b => strLe a.nameOf b.nameOf) es

/-- Treatment of one surviving directory entry in the scan loop of
`print_filesystem_tree_for_synced_group` (xcode_tree.py lines 170-211).
Bundle-like directories (`.xcassets`, `.playground`) get their icon and
are not recursed into; any other directory is printed and recursed into,
its recursive `found` flag being discarded, exactly as in the source; a
file is printed only when its raw name passes the case-sensitive
extension test, otherwise it contributes nothing. -/
def scanStep (recurse : List FSNode → Option (List String × Bool)) (istr : String)
    (e : FSNode) (acc : Option (List String × Bool)) : Option (List String × Bool) :=
  match acc with
  | none => none
  | some r =>
    match e with
    | .dir n ch =>
      if strEndsWith n ".xcassets" then some ((istr ++ "🎨 " ++ n) :: r.1, true)
      else if strEndsWith n ".playground" then some ((istr ++ "🎈 " ++ n) :: r.1, true)
      else
        match recurse ch with
        | none => none
        | some sub => some ((istr ++ "📁 " ++ n) :: sub.1 ++ r.1, true)
    | .file n =>
      if isRecognizedFile n then
        some ((istr ++ fileIconForScan n ++ " " ++ n) :: r.1, true)
      else some r

/-- One level of the filesystem scan of `print_filesystem_tree_for_synced_group`
(xcode_tree.py lines 152-213), on the listing of the scanned directory: the
listing is sorted, dotfiles and denylisted names are skipped, and the
survivors are processed in order by `scanStep`.  The recursion into a plain
sub-directory descends into that entry's subtree (the source recurses on
the joined path, which names the same directory); the fuel bounds the
recursion depth, `none` meaning the scan recursion exceeded it. -/
def scan_directory_entries : Nat → List FSNode → Nat → Option (List String × Bool)
  | 0, _, _ => none
  | fuel + 1, entries, indent_level =>
    let items := (sortFSEntries entries).filter (fun e => !shouldSkipEntry e.nameOf)
    items.foldr
      (scanStep (fun ch => scan_directory_entries fuel ch (indent_level + 1))
        (indentStr indent_level))
      (some ([], false))

/-- Model of `print_filesystem_tree_for_synced_group`'s entry: the guard on
a falsy or non-directory path returns "nothing found", otherwise the
directory listing is scanned. -/
def print_filesystem_tree_for_synced_group (fs : List FSNode) (fuel : Nat)
    (directory_path : Option String) (indent_level : Nat) : Option (List String × Bool) :=
  if truthy directory_path then
    match dirEntriesAt fs (directory_path.getD "") with
    | some es => scan_directory_entries fuel es indent_level
    | none => some ([], false)
  else some ([], false)

/-- The per-run target cache `TARGETS_BY_NAME_CACHE`: display name to
native target.  Insertions prepend, lookups take the first hit, so a later
insertion of the same name wins, like a Python dict assignment. -/
abbrev TargetCache := List (String × PBXObject)

/-- Lookup in the target cache (both the `in` test and the indexing). -/
def cacheLookup (c : TargetCache) (k : String) : Option PBXObject :=
  (c.find? (fun kv => kv.1 == k)).map (fun kv => kv.2)

/-- The target-product fallback of the synchronized-group branch of
`_print_recursive` (xcode_tree.py lines 340-354): exact display name
first, then the `"Extension"` heuristic; at most one product line. -/
def syncedGroupFallback (project : XcodeProject) (cache : TargetCache)
    (display_name : String) (indent_level : Nat) : List String :=
  let target? :=
    match cacheLookup cache display_name with
    | some t => some t
    | none => cacheLookup cache (display_name ++ "Extension")
  match target? with
  | none => []
  | some t =>
    if truthy t.productReference then
      match project.get_object (t.productReference.getD "") with
      | some product_ref =>
        [indentStr (indent_level + 1) ++ "➡️ Product: " ++ get_display_name product_ref]
      | none => []
    else []

/-- The first `PBXSourcesBuildPhase` among a target's build phases
(identifiers that do not dereference are passed over; the source `break`s
after processing the first sources phase). -/
def findSourcesPhase (project : XcodeProject) : List String → Option PBXObject
  | [] => none
  | ident :: rest =>
    match project.get_object ident with
    | some bp => if bp.isa = "PBXSourcesBuildPhase" then some bp else findSourcesPhase project rest
    | none => findSourcesPhase project rest

/-- The lines printed for the files of a sources build phase. -/
def buildPhaseFileLines (project : XcodeProject) (ids : List String)
    (file_indent_str : String) : List String :=
  ids.foldr
    (fun ident acc =>
      match project.get_object ident with
      | some build_file =>
        if truthy build_file.fileRef then
          match project.get_object (build_file.fileRef.getD "") with
          | some file_ref =>
            let dn := get_display_name file_ref
            (file_indent_str ++ (if strEndsWith dn ".swift" then "𝑺" else "📄")
              ++ " " ++ dn ++ " (from build phase)") :: acc
          | none => acc
        else acc
      | none => acc)
    []

/-- Model of `print_target_files_from_buildphase` (xcode_tree.py lines
215-253): list the first sources phase's files; when none print the
target's product reference; the flag says whether source files printed. -/
def print_target_files_from_buildphase (project : XcodeProject)
    (target_obj : PBXObject) (indent_level_for_files : Nat) : List String × Bool :=
  let ls :=
    match findSourcesPhase project target_obj.buildPhases with
    | some bp => buildPhaseFileLines project bp.files (indentStr indent_level_for_files)
    | none => []
  if ls.isEmpty then
    let productLines :=
      if truthy target_obj.productReference then
        match project.get_object (target_obj.productReference.getD "") with
        | some product_ref =>
          [indentStr indent_level_for_files ++ "➡️ Product: " ++ get_display_name product_ref]
        | none => []
      else []
    (productLines, false)
  else (ls, true)

/-- The icon of the group line of `_print_recursive`: link for a
synchronized group, blue folder for a pathful group whose source tree is
not `<group>`, yellow folder otherwise. -/
def groupIcon (item : PBXObject) : String :=
  if item.isa = "PBXFileSystemSynchronizedRootGroup" then "🔗"
  else if truthy item.path ∧ item.source_tree.getD "<group>" ≠ "<group>" then "🟦"
  else "🗂️"

/-- The `PBXFileReference` icon chain of `_print_recursive` (xcode_tree.py
lines 375-390), on the raw display name. -/
def fileReferenceIcon (display_name : String) : String :=
  if strEndsWith display_name ".swift" then "𝑺"
  else if strEndsWith display_name ".h" ∨ strEndsWith display_name ".hpp" then "𝒉"
  else if strEndsWith display_name ".m" ∨ strEndsWith display_name ".mm"
      ∨ strEndsWith display_name ".c" ∨ strEndsWith display_name ".cpp" then "𝒎"
  else if strEndsWith display_name ".png" ∨ strEndsWith display_name ".jpg"
      ∨ strEndsWith display_name ".jpeg" ∨ strEndsWith display_name ".gif"
      ∨ strEndsWith display_name ".heic" then "🖼️"
  else if strEndsWith display_name ".json" then "｛｝"
  else if strEndsWith display_name ".plist" then "⚙️"
  else if strEndsWith display_name ".xcassets" then "🎨"
  else if strEndsWith display_name ".storyboard" ∨ strEndsWith display_name ".xib" then "📱"
  else if strEndsWith display_name ".intentdefinition" then "💡"
  else if strEndsWith display_name ".strings" ∨ strEndsWith display_name ".stringsdict" then "🌍"
  else if strEndsWith display_name ".entitlements" then "🔑"
  else if strEndsWith display_name ".pdf" then "📰"
  else if strEndsWith display_name ".playground" then "🎈"
  else "📄"

/-- Model of `_print_recursive` (xcode_tree.py lines 302-411).  The fuel
bounds the depth of the walk (and of path resolution); `none` means some
recursion in the walk does not finish within that depth.  A
synchronized group is printed and then either filesystem-scanned (when its
resolved path is an existing directory) or, when the scan reports nothing
recognised, given the target-product fallback; when its path does not
resolve to a directory nothing further is printed, the corresponding
fallback in the source being commented out (lines 355-372). -/
def print_recursive (fs : List FSNode) (cwd : String) (project : XcodeProject)
    (cache : TargetCache) (current_project_root_dir : String) :
    Nat → PBXObject → Nat → Option (List String)
  | 0, _, _ => none
  | fuel + 1, current_item, indent_level =>
    if current_item.isa = "PBXGroup" ∨ current_item.isa = "PBXFileSystemSynchronizedRootGroup" then
      let display_name := get_display_name current_item
      let head := indentStr indent_level ++ groupIcon current_item ++ " " ++ display_name
      if current_item.isa = "PBXFileSystemSynchronizedRootGroup" then
        match get_resolved_path_for_group_item fs cwd project current_project_root_dir
            (fuel + 1) current_item with
        | none => none
        | some group_fs_path =>
          match group_fs_path with
          | some p =>
            if isDirPath fs p then
              match print_filesystem_tree_for_synced_group fs (fuel + 1) (some p)
                  (indent_level + 1) with
              | none => none
              | some (ls, filesystem_files_found) =>
                if filesystem_files_found then some (head :: ls)
                else some (head :: ls ++ syncedGroupFallback project cache display_name indent_level)
            else some [head]
          | none => some [head]
      else
        (current_item.children.foldr
          (fun child_id acc =>
            match acc with
            | none => none
            | some rest_lines =>
              match project.get_object child_id with
              | some child_obj =>
                match print_recursive fs cwd project cache current_project_root_dir
                    fuel child_obj (indent_level + 1) with
                | none => none
                | some ls => some (ls ++ rest_lines)
              | none => some rest_lines)
          (some [])).map (fun ls => head :: ls)
    else if current_item.isa = "PBXFileReference" then
      let display_name := get_display_name current_item
      some [indentStr indent_level ++ fileReferenceIcon display_name ++ " " ++ display_name]
    else if current_item.isa = "PBXVariantGroup" then
      let display_name := get_display_name current_item
      (current_item.children.foldr
        (fun child_id acc =>
          match acc with
          | none => none
          | some rest_lines =>
            match project.get_object child_id with
            | some child_obj =>
              match print_recursive fs cwd project cache current_project_root_dir
                  fuel child_obj (indent_level + 1) with
              | none => none
              | some ls => some (ls ++ rest_lines)
            | none => some rest_lines)
        (some [])).map
        (fun ls => (indentStr indent_level ++ "🌍 " ++ display_name ++ " (Localized Group)") :: ls)
    else if current_item.isa = "PBXNativeTarget" then
      let display_name := get_display_name current_item
      let r := print_target_files_from_buildphase project current_item (indent_level + 1)
      some ((indentStr indent_level ++ "🎯 " ++ display_name ++ " (Target - direct tree entry)") :: r.1)
    else
      some [indentStr indent_level ++ "❔ " ++ get_display_name current_item
        ++ " (Type: " ++ current_item.isa ++ ")"]

/-- The inputs of one run: where the project bundle sits, the root used to
resolve `SOURCE_ROOT` paths, the working directory, the filesystem, and the
outcome of `XcodeProject.load` (`none` models the parse raising, with
`loadErrorText` the exception's text). -/
structure SetupEnv where
  bundlePath : String
  projectRoot : String
  cwd : String
  fsRoot : List FSNode
  loadResult : Option XcodeProject
  loadErrorText : String := ""

/-- Model of `print_project_structure` (xcode_tree.py lines 255-300).  The
incoming cache models the process-wide `TARGETS_BY_NAME_CACHE` before the
call; the function discards it (the source resets the global to `{}` first)
and returns the cache it leaves behind.  Every error path prints its
message and returns normally, exactly like the source's `print(...); return`
statements; the first component is `none` only when the tree walk exceeds
the fuel. -/
def print_project_structure (fuel : Nat) (env : SetupEnv)
    (incoming_cache : TargetCache) : Option (List String) × TargetCache :=
  let _ := incoming_cache
  let cache0 : TargetCache := []
  let pbxproj_file_path := joinPath env.bundlePath "project.pbxproj"
  if ¬ existsFS env.fsRoot pbxproj_file_path then
    (some ["Error: project.pbxproj not found at " ++ pbxproj_file_path], cache0)
  else
    match env.loadResult with
    | none =>
      (some ["Error loading project " ++ pbxproj_file_path ++ ": " ++ env.loadErrorText], cache0)
    | some project =>
      if ¬ truthy project.rootObject then
        (some ["Error: Project rootObject ID missing"], cache0)
      else
        match project.get_object (project.rootObject.getD "") with
        | none => (some ["Error: Could not retrieve root PBXProject object"], cache0)
        | some project_obj =>
          if project_obj.isa ≠ "PBXProject" then
            (some ["Error: Root object is not PBXProject. ISA: " ++ project_obj.isa], cache0)
          else
            let cache := project_obj.targets.foldl
              (fun c target_id =>
                match project.get_object target_id with
                | some target =>
                  if target.isa = "PBXNativeTarget" then (get_display_name target, target) :: c
                  else c
                | none => c)
              cache0
            if ¬ truthy project_obj.mainGroup then
              (some ["Error: mainGroup ID missing"], cache)
            else
              match project.get_object (project_obj.mainGroup.getD "") with
              | none => (some ["Error: Could not retrieve main group"], cache)
              | some main_group =>
                match print_recursive env.fsRoot env.cwd project cache env.projectRoot
                    fuel main_group 0 with
                | none => (none, cache)
                | some ls =>
                  (some (("Xcode Project Structure for: " ++ basename env.bundlePath)
                    :: "----------------------------------------------------"
                    :: ls ++ ["----------------------------------------------------"]), cache)

/-- Model of the `__main__` block (xcode_tree.py lines 428-437): a missing
project bundle prints the error lines and exits with status 1; otherwise
`print_project_structure` runs (starting from the reset module cache) and
the process falls off the end of the script with exit status 0, whatever
that call printed.  The result pairs the printed lines with the exit code;
`none` again means the tree walk exceeded the fuel. -/
def main_run (fuel : Nat) (env : SetupEnv) (script_dir project_root_dir : String) :
    Option (List String × Nat) :=
  if ¬ existsFS env.fsRoot env.bundlePath then
    some (["Error: Xcode project path not found: " ++ env.bundlePath,
           "       Script directory: " ++ script_dir,
           "       Project root (derived): " ++ project_root_dir], 1)
  else
    match (print_project_structure fuel env []).1 with
    | none => none
    | some out => some (out, 0)

/-!
Helper lemmas shared by the path-resolution claims: one unfolding of the
parent-relative (`<group>`) branch of `get_resolved_path_for_group_item`,
split by the fate of the parent.
-/

/-- Unfolding of the parent-relative branch when the parent link is falsy
or does not dereference: the function falls back to the project root. -/
theorem resolve_group_fallback_no_parent (fs : List FSNode) (cwd : String)
    (project : XcodeProject) (root : String) (fuel : Nat) (item : PBXObject)
    (hpath : truthy item.path = true) (hst : item.source_tree = some "<group>")
    (hpar : parentObjOf project item = none) :
    get_resolved_path_for_group_item fs cwd project root (fuel + 1) item
      = some (some (abspath cwd (joinPath root (item.path.getD "")))) := by
  have hest : effectiveSourceTree item = some "<group>" := by
    simp [effectiveSourceTree, hst]
  have hne : truthy (some "<group>") = true := rfl
  simp [get_resolved_path_for_group_item, hpath, hest, hpar, hne]

/-- Unfolding of the parent-relative branch when the parent resolves to
`None`: the function falls back to the project root. -/
theorem resolve_group_parent_unresolved (fs : List FSNode) (cwd : String)
    (project : XcodeProject) (root : String) (fuel : Nat) (item parent_obj : PBXObject)
    (hpath : truthy item.path = true) (hst : item.source_tree = some "<group>")
    (hpar : parentObjOf project item = some parent_obj)
    (hres : get_resolved_path_for_group_item fs cwd project root fuel parent_obj
      = some none) :
    get_resolved_path_for_group_item fs cwd project root (fuel + 1) item
      = some (some (abspath cwd (joinPath root (item.path.getD "")))) := by
  have hest : effectiveSourceTree item = some "<group>" := by
    simp [effectiveSourceTree, hst]
  have hne : truthy (some "<group>") = true := rfl
  simp [get_resolved_path_for_group_item, hpath, hest, hpar, hres, hne]

/-- Unfolding of the parent-relative branch when the parent resolves to a
path: the result depends only on whether that path is a directory. -/
theorem resolve_group_parent_resolved (fs : List FSNode) (cwd : String)
    (project : XcodeProject) (root : String) (fuel : Nat) (item parent_obj : PBXObject)
    (pp : String)
    (hpath : truthy item.path = true) (hst : item.source_tree = some "<group>")
    (hpar : parentObjOf project item = some parent_obj)
    (hres : get_resolved_path_for_group_item fs cwd project root fuel parent_obj
      = some (some pp)) :
    get_resolved_path_for_group_item fs cwd project root (fuel + 1) item
      = (if isDirPath fs pp then some (some (abspath cwd (joinPath pp (item.path.getD ""))))
         else some (some (abspath cwd (joinPath root (item.path.getD ""))))) := by
  have hest : effectiveSourceTree item = some "<group>" := by
    simp [effectiveSourceTree, hst]
  have hne : truthy (some "<group>") = true := rfl
  simp [get_resolved_path_for_group_item, hpath, hest, hpar, hres, hne]

/-!
Claim C4: parent-relative resolution uses the resolved parent directory
when it exists and degrades to the project root otherwise.
-/

/-- Claim C4: for a node that declares a path and carries the
parent-relative (`<group>`) anchor, when its parent exists and resolves to
an existing directory the resolved path is `abspath (join parent path)`;
when the parent is absent, or resolves to `None` or to something that is
not a directory, resolution returns `abspath (join projectRoot path)`
instead of failing. -/
theorem C4_parent_relative_resolution (fs : List FSNode) (cwd : String)
    (project : XcodeProject) (root : String) (fuel : Nat) (item : PBXObject)
    (hpath : truthy item.path = true) (hst : item.source_tree = some "<group>") :
    (∀ parent_obj pp, parentObjOf project item = some parent_obj →
      get_resolved_path_for_group_item fs cwd project root fuel parent_obj = some (some pp) →
      isDirPath fs pp = true →
      get_resolved_path_for_group_item fs cwd project root (fuel + 1) item
        = some (some (abspath cwd (joinPath pp (item.path.getD "")))))
    ∧ (parentObjOf project item = none →
        get_resolved_path_for_group_item fs cwd project root (fuel + 1) item
          = some (some (abspath cwd (joinPath root (item.path.getD "")))))
    ∧ (∀ parent_obj, parentObjOf project item = some parent_obj →
        (get_resolved_path_for_group_item fs cwd project root fuel parent_obj = some none
          ∨ ∃ pp, get_resolved_path_for_group_item fs cwd project root fuel parent_obj
              = some (some pp) ∧ isDirPath fs pp = false) →
        get_resolved_path_for_group_item fs cwd project root (fuel + 1) item
          = some (some (abspath cwd (joinPath root (item.path.getD ""))))) := by
  refine ⟨?_, ?_, ?_⟩
  · intro parent_obj pp hpar hres hdir
    rw [resolve_group_parent_resolved fs cwd project root fuel item parent_obj pp
      hpath hst hpar hres, hdir]
    simp
  · intro hpar
    exact resolve_group_fallback_no_parent fs cwd project root fuel item hpath hst hpar
  · intro parent_obj hpar hbroken
    rcases hbroken with hres | ⟨pp, hres, hdir⟩
    · exact resolve_group_parent_unresolved fs cwd project root fuel item parent_obj
        hpath hst hpar hres
    · rw [resolve_group_parent_resolved fs cwd project root fuel item parent_obj pp
        hpath hst hpar hres, hdir]
      simp

/-- The concrete project of the C4 witness: a parent group anchored at the
project root whose directory exists on disk, with a child anchored at the
parent. -/
def c4Parent : PBXObject :=
  { isa := "PBXGroup", path := some "Parent", source_tree := some "SOURCE_ROOT" }

def c4Item : PBXObject :=
  { isa := "PBXGroup", path := some "Child", source_tree := some "<group>",
    parent := some "P" }

def c4Project : XcodeProject := { objects := [("P", c4Parent)] }

def c4FS : List FSNode := [.dir "root" [.dir "Parent" []]]

/-- Witness for C4 at a concrete input: the parent resolves to the existing
directory `/root/Parent` and the child resolves beneath it. -/
theorem C4_witness :
    truthy c4Item.path = true ∧ c4Item.source_tree = some "<group>"
    ∧ parentObjOf c4Project c4Item = some c4Parent
    ∧ get_resolved_path_for_group_item c4FS "/cwd" c4Project "/root" 1 c4Parent
        = some (some "/root/Parent")
    ∧ isDirPath c4FS "/root/Parent" = true
    ∧ get_resolved_path_for_group_item c4FS "/cwd" c4Project "/root" 2 c4Item
        = some (some "/root/Parent/Child") := by
  refine ⟨rfl, rfl, rfl, rfl, rfl, ?_⟩
  have h := (C4_parent_relative_resolution c4FS "/cwd" c4Project "/root" 1 c4Item rfl rfl).1
    c4Parent "/root/Parent" rfl rfl rfl
  exact h.trans (by decide)

/-!
Claim C5: the spec's invariant says a broken parent chain makes resolution
fail; the code instead degrades to the project root.
-/

/-- The node of the C5 counterexample: parent-relative anchor and no parent
at all, the most broken chain possible. -/
def c5Node : PBXObject :=
  { isa := "PBXGroup", path := some "Sub", source_tree := some "<group>" }

def c5Project : XcodeProject := { objects := [] }

/-- Counterexample to claim C5: a parent-relative node with a missing
parent resolves to `projectRoot/Sub` — resolution does NOT fail. -/
theorem C5_counterexample_broken_parent_still_resolves :
    get_resolved_path_for_group_item [] "/cwd" c5Project "/proj" 1 c5Node
      = some (some "/proj/Sub")
    ∧ get_resolved_path_for_group_item [] "/cwd" c5Project "/proj" 1 c5Node
      ≠ some none := ⟨rfl, by decide⟩

/-- Claim C5 as amended: for a parent-relative node whose parent chain is
broken — the parent missing, or its path unresolved, or resolved to a
non-directory — resolution does not fail but returns
`abspath (join projectRoot path)`. -/
theorem C5_amended_broken_parent_falls_back (fs : List FSNode) (cwd : String)
    (project : XcodeProject) (root : String) (fuel : Nat) (item : PBXObject)
    (hpath : truthy item.path = true) (hst : item.source_tree = some "<group>")
    (hbroken : parentObjOf project item = none
      ∨ ∃ parent_obj, parentObjOf project item = some parent_obj
          ∧ (get_resolved_path_for_group_item fs cwd project root fuel parent_obj = some none
            ∨ ∃ pp, get_resolved_path_for_group_item fs cwd project root fuel parent_obj
                = some (some pp) ∧ isDirPath fs pp = false)) :
    get_resolved_path_for_group_item fs cwd project root (fuel + 1) item
      = some (some (abspath cwd (joinPath root (item.path.getD "")))) := by
  rcases hbroken with hpar | ⟨parent_obj, hpar, hres | ⟨pp, hres, hdir⟩⟩
  · exact resolve_group_fallback_no_parent fs cwd project root fuel item hpath hst hpar
  · exact resolve_group_parent_unresolved fs cwd project root fuel item parent_obj
      hpath hst hpar hres
  · rw [resolve_group_parent_resolved fs cwd project root fuel item parent_obj pp
      hpath hst hpar hres, hdir]
    simp

/-- The node of the C5 witness: a dangling parent identifier. -/
def c5wItem : PBXObject :=
  { isa := "PBXGroup", path := some "Sub", source_tree := some "<group>",
    parent := some "MISSING" }

/-- Witness for the amended C5 at a concrete input: the dangling parent
identifier yields the project-root fallback. -/
theorem C5_witness :
    truthy c5wItem.path = true ∧ c5wItem.source_tree = some "<group>"
    ∧ parentObjOf c5Project c5wItem = none
    ∧ get_resolved_path_for_group_item [] "/cwd" c5Project "/proj" 1 c5wItem
        = some (some "/proj/Sub") := by
  refine ⟨rfl, rfl, rfl, ?_⟩
  have h := C5_amended_broken_parent_falls_back [] "/cwd" c5Project "/proj" 0 c5wItem
    rfl rfl (Or.inl rfl)
  exact h.trans (by decide)

/-!
Claim C3: the spec requires path resolution to terminate on parent cycles;
the code has no depth bound or visited set and recurses forever.
-/

/-- First node of a two-node parent cycle, each parent-relative. -/
def cycleNodeA : PBXObject :=
  { isa := "PBXGroup", path := some "a", source_tree := some "<group>",
    parent := some "B" }

/-- Second node of the parent cycle. -/
def cycleNodeB : PBXObject :=
  { isa := "PBXGroup", path := some "b", source_tree := some "<group>",
    parent := some "A" }

def cycleProject : XcodeProject :=
  { objects := [("A", cycleNodeA), ("B", cycleNodeB)] }

/-- Claim C3, settled against the code: on a two-node parent cycle the
resolution recursion exceeds EVERY depth bound — no amount of fuel returns
a result, i.e. the Python recursion never terminates (it dies with a
`RecursionError` instead of treating the cycle as unresolved). -/
theorem C3_parent_cycle_diverges : ∀ fuel,
    get_resolved_path_for_group_item [] "/cwd" cycleProject "/proj" fuel cycleNodeA = none
    ∧ get_resolved_path_for_group_item [] "/cwd" cycleProject "/proj" fuel cycleNodeB
      = none := by
  intro fuel
  induction fuel with
  | zero => exact ⟨rfl, rfl⟩
  | succ n ih =>
    have hta : truthy cycleNodeA.path = true := rfl
    have htb : truthy cycleNodeB.path = true := rfl
    have hsta : effectiveSourceTree cycleNodeA = some "<group>" := rfl
    have hstb : effectiveSourceTree cycleNodeB = some "<group>" := rfl
    have hpa : parentObjOf cycleProject cycleNodeA = some cycleNodeB := rfl
    have hpb : parentObjOf cycleProject cycleNodeB = some cycleNodeA := rfl
    have htg : truthy (some "<group>") = true := rfl
    refine ⟨?_, ?_⟩
    · simp [get_resolved_path_for_group_item, hta, hsta, hpa, htg, ih.2]
    · simp [get_resolved_path_for_group_item, htb, hstb, hpb, htg, ih.1]

/-!
Claim C1: target-product fallback for synchronized groups.  The claim says
the fallback also fires when the path fails to resolve; in the code that
branch is commented out, so the fallback fires only after a scan of an
existing directory reports nothing.
-/

/-- The synchronized group of the C1 counterexample: it has no `path`
attribute, so path resolution returns `None`. -/
def c1Group : PBXObject :=
  { isa := "PBXFileSystemSynchronizedRootGroup", name := some "G" }

/-- A native target whose display name matches the group exactly and that
has a product reference. -/
def c1Target : PBXObject :=
  { isa := "PBXNativeTarget", name := some "G", productReference := some "PRODID" }

def c1Product : PBXObject := { isa := "PBXFileReference", path := some "G.app" }

def c1Project : XcodeProject :=
  { objects := [("GID", c1Group), ("TID", c1Target), ("PRODID", c1Product)] }

def c1Cache : TargetCache := [("G", c1Target)]

/-- Counterexample to claim C1 as stated: the group's path fails to
resolve, the Target Index holds a matching target with a product
reference, and yet the walker emits ONLY the group line — no fallback. -/
theorem C1_counterexample_unresolved_path_no_fallback :
    print_recursive [] "/cwd" c1Project c1Cache "/proj" 3 c1Group 0 = some ["🔗 G"]
    ∧ get_resolved_path_for_group_item [] "/cwd" c1Project "/proj" 3 c1Group = some none
    ∧ cacheLookup c1Cache (get_display_name c1Group) = some c1Target
    ∧ truthy c1Target.productReference = true
    ∧ c1Project.get_object "PRODID" = some c1Product :=
  ⟨rfl, rfl, rfl, rfl, rfl⟩

/-- Claim C1 as amended: after the group line, the target-product fallback
is consulted exactly when the resolved path is an existing directory whose
scan reports nothing recognised; when the path fails to resolve, or
resolves to a non-directory, nothing further is emitted for the node (no
target lookup); when the scan found something, its lines are emitted and
no fallback is added. -/
theorem C1_amended_fallback_only_after_scan (fs : List FSNode) (cwd : String)
    (project : XcodeProject) (cache : TargetCache) (root : String) (fuel : Nat)
    (item : PBXObject) (indent_level : Nat)
    (hisa : item.isa = "PBXFileSystemSynchronizedRootGroup") :
    (get_resolved_path_for_group_item fs cwd project root (fuel + 1) item = some none →
      print_recursive fs cwd project cache root (fuel + 1) item indent_level
        = some [indentStr indent_level ++ "🔗" ++ " " ++ get_display_name item])
    ∧ (∀ p, get_resolved_path_for_group_item fs cwd project root (fuel + 1) item
          = some (some p) →
        isDirPath fs p = false →
        print_recursive fs cwd project cache root (fuel + 1) item indent_level
          = some [indentStr indent_level ++ "🔗" ++ " " ++ get_display_name item])
    ∧ (∀ p ls, get_resolved_path_for_group_item fs cwd project root (fuel + 1) item
          = some (some p) →
        isDirPath fs p = true →
        print_filesystem_tree_for_synced_group fs (fuel + 1) (some p) (indent_level + 1)
          = some (ls, true) →
        print_recursive fs cwd project cache root (fuel + 1) item indent_level
          = some ((indentStr indent_level ++ "🔗" ++ " " ++ get_display_name item) :: ls))
    ∧ (∀ p ls, get_resolved_path_for_group_item fs cwd project root (fuel + 1) item
          = some (some p) →
        isDirPath fs p = true →
        print_filesystem_tree_for_synced_group fs (fuel + 1) (some p) (indent_level + 1)
          = some (ls, false) →
        print_recursive fs cwd project cache root (fuel + 1) item indent_level
          = some ((indentStr indent_level ++ "🔗" ++ " " ++ get_display_name item)
              :: ls ++ syncedGroupFallback project cache (get_display_name item)
                  indent_level)) := by
  have hicon : groupIcon item = "🔗" := by simp [groupIcon, hisa]
  refine ⟨?_, ?_, ?_, ?_⟩
  · intro hres
    simp [print_recursive, hisa, hicon, hres]
  · intro p hres hdir
    simp [print_recursive, hisa, hicon, hres, hdir]
  · intro p ls hres hdir hscan
    simp [print_recursive, hisa, hicon, hres, hdir, hscan]
  · intro p ls hres hdir hscan
    simp [print_recursive, hisa, hicon, hres, hdir, hscan]

/-- The synchronized group of the C1 witness: it resolves to the existing
but empty directory `/proj/G`, so the scan reports nothing and the
fallback fires. -/
def c1wGroup : PBXObject :=
  { isa := "PBXFileSystemSynchronizedRootGroup", name := some "G", path := some "G" }

def c1wFS : List FSNode := [.dir "proj" [.dir "G" []]]

/-- Witness for the amended C1 at a concrete input: empty resolved
directory, matching target, exactly one product fallback line. -/
theorem C1_witness_empty_directory_fallback :
    c1wGroup.isa = "PBXFileSystemSynchronizedRootGroup"
    ∧ get_resolved_path_for_group_item c1wFS "/cwd" c1Project "/proj" 3 c1wGroup
        = some (some "/proj/G")
    ∧ isDirPath c1wFS "/proj/G" = true
    ∧ print_filesystem_tree_for_synced_group c1wFS 3 (some "/proj/G") 1 = some ([], false)
    ∧ print_recursive c1wFS "/cwd" c1Project c1Cache "/proj" 3 c1wGroup 0
        = some ["🔗 G", "  ➡️ Product: G.app"] := by
  refine ⟨rfl, rfl, rfl, rfl, ?_⟩
  have h := (C1_amended_fallback_only_after_scan c1wFS "/cwd" c1Project c1Cache "/proj" 2
    c1wGroup 0 rfl).2.2.2 "/proj/G" [] rfl rfl rfl
  exact h.trans (by decide)

/-!
Claim C2: the spec says fatal setup errors exit with non-zero status; in
the code every error inside `print_project_structure` prints its message
and RETURNS, so the process falls off `__main__` with exit status 0.  Only
failing to locate the `.xcodeproj` bundle exits with status 1.
-/

/-- The run environment of the C2 counterexample: the bundle directory
exists but holds no `project.pbxproj`. -/
def c2Env : SetupEnv :=
  { bundlePath := "/proj/Eleve.xcodeproj", projectRoot := "/proj", cwd := "/",
    fsRoot := [.dir "proj" [.dir "Eleve.xcodeproj" []]], loadResult := none }

/-- Counterexample to claim C2 as stated: with `project.pbxproj` missing —
one of the claim's fatal setup errors — the run prints the descriptive
message but exits with status 0, not non-zero. -/
theorem C2_counterexample_missing_pbxproj_exits_zero :
    main_run 1 c2Env "/proj/Scripts" "/proj"
      = some (["Error: project.pbxproj not found at /proj/Eleve.xcodeproj/project.pbxproj"],
          0) := rfl

/-- Claim C2 as amended: whenever the run completes, the exit status is 0
exactly when the `.xcodeproj` bundle path exists — the setup errors
detected inside `print_project_structure` (missing `project.pbxproj`,
parse failure, missing or unresolvable root object or main group) report
their message but still exit 0; only a missing bundle exits 1. -/
theorem C2_amended_exit_codes (fuel : Nat) (env : SetupEnv)
    (script_dir project_root_dir : String) (out : List String) (code : Nat)
    (h : main_run fuel env script_dir project_root_dir = some (out, code)) :
    code = (if existsFS env.fsRoot env.bundlePath then 0 else 1) := by
  by_cases hb : existsFS env.fsRoot env.bundlePath = true
  · simp only [main_run, hb] at h
    simp only [hb, if_true]
    cases hpp : (print_project_structure fuel env []).1 with
    | none => rw [hpp] at h; simp at h
    | some o =>
      rw [hpp] at h
      simp at h
      omega
  · simp only [main_run, hb] at h
    simp only [Bool.not_eq_true] at hb
    simp [hb] at h ⊢
    omega

/-- Witness for the amended C2 at a concrete input: the bundle exists, the
description file does not, and the exit status is 0. -/
theorem C2_witness :
    main_run 1 c2Env "/proj/Scripts" "/proj"
      = some (["Error: project.pbxproj not found at /proj/Eleve.xcodeproj/project.pbxproj"],
          0)
    ∧ (0 : Nat) = (if existsFS c2Env.fsRoot c2Env.bundlePath then 0 else 1) :=
  ⟨rfl, C2_amended_exit_codes 1 c2Env "/proj/Scripts" "/proj" _ 0 rfl⟩

/-!
Claim C6: `get_display_name` compares the source tree against the literal
string `'GROUP'`, a value that never occurs as a real source tree, instead
of the group anchor `'<group>'` that the very same file uses everywhere
else — so a group-relative group whose name equals its path's basename
gets its full path, not its name.
-/

/-- The node of the C6 failing input: a `<group>`-anchored group whose
explicit name `Foo` equals the basename of its declared path `bar/Foo`. -/
def c6Node : PBXObject :=
  { isa := "PBXGroup", name := some "Foo", path := some "bar/Foo",
    source_tree := some "<group>" }

/-- Claim C6, settled against the code: the group-relative node's explicit
name is NOT kept — the full path is returned, because `'<group>'` differs
from the compared literal `'GROUP'`; the walker's own icon test meanwhile
treats the very same node as a plain (non blue-folder) group. -/
theorem C6_group_anchored_name_not_kept :
    get_display_name c6Node = "bar/Foo"
    ∧ c6Node.source_tree = some "<group>"
    ∧ groupIcon c6Node = "🗂️" := ⟨rfl, rfl, rfl⟩

/-!
Claim C7: the scanner's "any recognized entry found" flag depends only on
the entries of the scanned level itself.
-/

/-- Whether one directory entry makes the scanner's flag true: it survives
the skip rule and is a directory (of any kind) or a recognised file.  The
predicate never looks inside a directory. -/
def scanEntryFlag (e : FSNode) : Bool :=
  !shouldSkipEntry e.nameOf && (e.isDir || isRecognizedFile e.nameOf)

/-- Any-preservation of the stable insertion. -/
theorem insertBy_any (le : α → α → Bool) (p : α → Bool) (a : α) (l : List α) :
    (insertBy le a l).any p = (p a || l.any p) := by
  induction l with
  | nil => simp [insertBy]
  | cons b bs ih =>
    cases hle : le a b
    · simp only [insertBy, hle, Bool.false_eq_true, if_false, List.any_cons, ih]
      cases p a <;> cases p b <;> simp
    · simp [insertBy, hle]

/-- Any-preservation of the sort: sorting does not change which entries a
predicate finds. -/
theorem pySortedBy_any (le : α → α → Bool) (p : α → Bool) (l : List α) :
    (pySortedBy le l).any p = l.any p := by
  induction l with
  | nil => rfl
  | cons a as ih => simp [pySortedBy, insertBy_any, ih]

/-- The scan loop's flag over any list of surviving entries is exactly
"some entry is a directory or a recognised file": each directory sets it
regardless of its contents (the recursive result is matched only for its
lines), and an unrecognised file leaves the accumulator untouched. -/
theorem scanFold_flag (recurse : List FSNode → Option (List String × Bool)) (istr : String) :
    ∀ (items : List FSNode) (r : List String × Bool),
      items.foldr (scanStep recurse istr) (some ([], false)) = some r →
      r.2 = items.any (fun e => e.isDir || isRecognizedFile e.nameOf) := by
  intro items
  induction items with
  | nil =>
    intro r h
    simp only [List.foldr_nil, Option.some.injEq] at h
    rw [← h]
    rfl
  | cons e rest ih =>
    intro r h
    simp only [List.foldr_cons] at h
    cases hacc : rest.foldr (scanStep recurse istr) (some ([], false)) with
    | none =>
      rw [hacc] at h
      simp [scanStep] at h
    | some r0 =>
      rw [hacc] at h
      have hr0 := ih r0 hacc
      cases e with
      | file n =>
        cases hrec : isRecognizedFile n
        · simp only [scanStep, hrec, Bool.false_eq_true, if_false, Option.some.injEq] at h
          rw [← h]
          simp [FSNode.isDir, FSNode.nameOf, hrec, hr0]
        · simp only [scanStep, hrec, if_true, Option.some.injEq] at h
          rw [← h]
          simp [FSNode.isDir, FSNode.nameOf, hrec]
      | dir n ch =>
        by_cases h1 : strEndsWith n ".xcassets" = true
        · simp only [scanStep, h1, if_true, Option.some.injEq] at h
          rw [← h]
          simp [FSNode.isDir]
        · by_cases h2 : strEndsWith n ".playground" = true
          · simp only [scanStep, h1, h2, Bool.false_eq_true, if_false, if_true,
              Option.some.injEq] at h
            rw [← h]
            simp [FSNode.isDir]
          · cases hsub : recurse ch with
            | none =>
              rw [Bool.not_eq_true] at h1 h2
              simp only [scanStep, h1, h2, Bool.false_eq_true, if_false, hsub] at h
              exact Option.noConfusion h
            | some sub =>
              rw [Bool.not_eq_true] at h1 h2
              simp only [scanStep, h1, h2, Bool.false_eq_true, if_false, hsub,
                Option.some.injEq] at h
              rw [← h]
              simp [FSNode.isDir]

/-- Claim C7: whenever one scan level completes, its returned flag is true
iff some entry OF THIS LEVEL survives the skip rule and is a directory
(plain or bundle-like, regardless of its own contents — the recursive
call's flag is discarded) or a file with a recognised extension;
unrecognised files never set it. -/
theorem C7_found_flag (fuel : Nat) (entries : List FSNode) (indent_level : Nat)
    (ls : List String) (b : Bool)
    (h : scan_directory_entries (fuel + 1) entries indent_level = some (ls, b)) :
    b = entries.any scanEntryFlag := by
  simp only [scan_directory_entries] at h
  have h2 := scanFold_flag (fun ch => scan_directory_entries fuel ch (indent_level + 1))
    (indentStr indent_level) _ _ h
  simpa [sortFSEntries, pySortedBy_any, List.any_filter, scanEntryFlag] using h2

/-- The directory of the C7 witness: an unrecognised file (case-mismatched
extension) and a recognised Swift source. -/
def c7Entries : List FSNode := [.file "Icon.PNG", .file "a.swift"]

/-- Witness for C7 at a concrete input: the scan completes with flag true,
matching the per-level predicate. -/
theorem C7_witness :
    scan_directory_entries 1 c7Entries 0 = some (["𝑺 a.swift"], true)
    ∧ true = c7Entries.any scanEntryFlag :=
  ⟨rfl, C7_found_flag 0 c7Entries 0 ["𝑺 a.swift"] true rfl⟩

/-!
Claim C8: the walker never consults a synchronized group's `children`.
-/

/-- Claim C8: the walker's output for a `PBXFileSystemSynchronizedRootGroup`
node is the same whatever the node's `children` list holds — every line
beneath the group comes from the filesystem scan or the target-product
fallback, never from graph-declared children. -/
theorem C8_children_never_consulted (fs : List FSNode) (cwd : String)
    (project : XcodeProject) (cache : TargetCache) (root : String) (fuel : Nat)
    (nm pth st par pr mg fr : Option String) (c1 c2 bp tg fls : List String)
    (indent_level : Nat) :
    print_recursive fs cwd project cache root fuel
      { isa := "PBXFileSystemSynchronizedRootGroup", name := nm, path := pth,
        source_tree := st, parent := par, children := c1, targets := tg,
        buildPhases := bp, productReference := pr, mainGroup := mg,
        files := fls, fileRef := fr } indent_level
    = print_recursive fs cwd project cache root fuel
      { isa := "PBXFileSystemSynchronizedRootGroup", name := nm, path := pth,
        source_tree := st, parent := par, children := c2, targets := tg,
        buildPhases := bp, productReference := pr, mainGroup := mg,
        files := fls, fileRef := fr } indent_level := by
  cases fuel with
  | zero => rfl
  | succ n => rfl

/-!
Claim C9: two runs over the same graph and filesystem print the same text;
the per-run target cache is reset at the start of each invocation.
-/

/-- Claim C9: running `print_project_structure` a second time, starting
from whatever `TARGETS_BY_NAME_CACHE` the first run left behind, prints
exactly the first run's output — the cache is reset on entry and the
traversal is a function of the graph and filesystem alone. -/
theorem C9_two_runs_identical (fuel : Nat) (env : SetupEnv) (c0 : TargetCache) :
    (print_project_structure fuel env ((print_project_structure fuel env c0).2)).1
      = (print_project_structure fuel env c0).1 := rfl

/-!
Claim C10: extension recognition is case-sensitive on the raw name even
though icon selection lower-cases the suffix.
-/

/-- Claim C10: `Icon.PNG` is not recognised — it is not printed and does
not set the found flag — although its lower-cased suffix `.png` is in the
allowlist (the icon logic lower-cases, the recognition test does not). -/
theorem C10_extension_case_sensitive :
    scan_directory_entries 1 [FSNode.file "Icon.PNG"] 0 = some ([], false)
    ∧ isRecognizedFile "Icon.PNG" = false
    ∧ strToLower (pySuffix "Icon.PNG") = ".png"
    ∧ ".png" ∈ source_extensions := ⟨rfl, rfl, rfl, by decide⟩
